import Mathlib

/-!
Shallow embedding of the movie-catalog CRUD service
(src/routes/movies.py and src/schemas/movies.py).

The persistence store is modelled as an explicit record of tables; each
endpoint is a function from the store (and the validated request payload)
to the new store paired with an "Except" result, where an error result
means the transaction was not committed (the store component returned in
the error case is the rolled-back, unchanged store).

Numbers: python floats are modelled as rationals; dates are modelled as
integer day numbers (parsing of ISO strings is representation detail).
The database model declarations (database/models.py) are not part of the
provided sources; the pieces that depend on them are modelled from the
spec and say so in their doc comments.
-/

/-- Modelled from the spec: database.models.MovieStatusEnum is not among the
provided sources; the spec names Released / Upcoming / In Production as its
exemplar members. -/
inductive MovieStatusEnum
  | released
  | upcoming
  | inProduction
deriving DecidableEq

/-- String value of a status member, mirroring the python enum value used by
the route (movie.status.value). -/
def statusValue : MovieStatusEnum → String
  | MovieStatusEnum.released => "Released"
  | MovieStatusEnum.upcoming => "Upcoming"
  | MovieStatusEnum.inProduction => "In Production"

/-- Parse a raw string into a status enum member, as pydantic does when
validating a status field against MovieStatusEnum. -/
def parseStatus (s : String) : Option MovieStatusEnum :=
  if s == "Released" then some MovieStatusEnum.released
  else if s == "Upcoming" then some MovieStatusEnum.upcoming
  else if s == "In Production" then some MovieStatusEnum.inProduction
  else none

/-- A JSON-like value, used for raw request payloads and serialized response
bodies. A date literal is abstracted as an integer day number. -/
inductive JVal
  | null
  | str (s : String)
  | num (q : ℚ)
  | date (d : Int)
  | arr (xs : List JVal)

/-- Country row: id, unique code, optional display name
(database/models.py is absent from the sources; the row shape follows the
spec data model and the CountryResponse schema fields id, code, name). -/
structure CountryModel where
  id : Nat
  code : String
  name : Option String
deriving DecidableEq

/-- Row shape shared by the Genre, Actor and Language lookup tables:
id and a unique name (matching the GenreResponse / ActorResponse /
LanguageResponse schema fields). -/
structure NamedRow where
  id : Nat
  name : String
deriving DecidableEq

abbrev GenreModel := NamedRow
abbrev ActorModel := NamedRow
abbrev LanguageModel := NamedRow

/-- Movie row. Relationships are represented by the country foreign key and
by the lists of related row ids, which stand for the join-table rows owned
by this movie (deleting the movie row drops them with it). The status
column stores the enum value string, as create_movie assigns
movie.status.value. -/
structure MovieModel where
  id : Nat
  name : String
  date : Int
  score : ℚ
  overview : String
  status : String
  budget : ℚ
  revenue : ℚ
  country_id : Nat
  genre_ids : List Nat
  actor_ids : List Nat
  language_ids : List Nat
deriving DecidableEq

/-- The persistence store: one list per table. -/
structure DB where
  movies : List MovieModel
  countries : List CountryModel
  genres : List GenreModel
  actors : List ActorModel
  languages : List LanguageModel
deriving DecidableEq

/-- Well-formedness of the store: movie primary keys are unique. -/
def DB.WF (db : DB) : Prop :=
  (db.movies.map (fun m => m.id)).Nodup

/-- Fresh primary key for a new row: one past the largest id in the table
(autoincrement). -/
def freshId (ids : List Nat) : Nat :=
  ids.foldr max 0 + 1

/-- Error kinds surfaced by the routes: 404, 409, 400/422. -/
inductive ApiError
  | notFound
  | conflict
  | invalidInput
deriving DecidableEq

/-- Validated creation payload (MovieCreateSchema fields). -/
structure MovieCreateSchema where
  name : String
  date : Int
  score : ℚ
  overview : String
  status : MovieStatusEnum
  budget : ℚ
  revenue : ℚ
  country : String
  genres : List String
  actors : List String
  languages : List String

/-- The validation constraints that MovieCreateSchema (via MovieBaseSchema
and its own Field declarations) imposes on a creation payload: name at most
255 characters, date at most 365 days after today, score in [0, 100],
budget and revenue nonnegative, country code at most 3 characters. -/
def MovieCreateValid (today : Int) (p : MovieCreateSchema) : Bool :=
  decide (p.name.length ≤ 255) && decide (p.date ≤ today + 365) &&
  decide (0 ≤ p.score) && decide (p.score ≤ 100) &&
  decide (0 ≤ p.budget) && decide (0 ≤ p.revenue) &&
  decide (p.country.length ≤ 3)

/-- Get-or-create of the country row by code (create_movie lines 52-58):
look up by code; if absent, insert a row with that code and no display
name, flushing so its id is available. -/
def getOrCreateCountry (code : String) (tbl : List CountryModel) :
    List CountryModel × CountryModel :=
  match tbl.find? (fun c => c.code == code) with
  | some c => (tbl, c)
  | none =>
    let c : CountryModel :=
      { id := freshId (tbl.map (fun r => r.id)), code := code, name := none }
    (tbl ++ [c], c)

/-- Get-or-create of one lookup row by name (one iteration of the
genre/actor/language loops of create_movie). -/
def getOrCreateNamed (nm : String) (tbl : List NamedRow) :
    List NamedRow × NamedRow :=
  match tbl.find? (fun e => e.name == nm) with
  | some e => (tbl, e)
  | none =>
    let e : NamedRow := { id := freshId (tbl.map (fun r => r.id)), name := nm }
    (tbl ++ [e], e)

/-- Resolve a list of names in order, each by its own get-or-create against
the table state left by the previous one (the flush makes an insert visible
to later lookups inside the same request). -/
def resolveNamed (names : List String) (tbl : List NamedRow) :
    List NamedRow × List NamedRow :=
  match names with
  | [] => (tbl, [])
  | nm :: rest =>
    let p := getOrCreateNamed nm tbl
    let q := resolveNamed rest p.1
    (q.1, p.2 :: q.2)

/-- POST /movies/ handler body (create_movie): uniqueness check on
(name, date), get-or-create resolution of the country and of each
genre/actor/language name, then the new movie row is built and committed.
On conflict nothing is written. -/
def create_movie (p : MovieCreateSchema) (db : DB) :
    DB × Except ApiError MovieModel :=
  if db.movies.any (fun m => m.name == p.name && m.date == p.date) then
    (db, Except.error ApiError.conflict)
  else
    let rc := getOrCreateCountry p.country db.countries
    let rg := resolveNamed p.genres db.genres
    let ra := resolveNamed p.actors db.actors
    let rl := resolveNamed p.languages db.languages
    let new_movie : MovieModel :=
      { id := freshId (db.movies.map (fun m => m.id)),
        name := p.name, date := p.date, score := p.score,
        overview := p.overview, status := statusValue p.status,
        budget := p.budget, revenue := p.revenue,
        country_id := rc.2.id,
        genre_ids := rg.2.map (fun g => g.id),
        actor_ids := ra.2.map (fun a => a.id),
        language_ids := rl.2.map (fun l => l.id) }
    ({ movies := db.movies ++ [new_movie], countries := rc.1,
       genres := rg.1, actors := ra.1, languages := rl.1 },
     Except.ok new_movie)

/-- Serialization of the creation response through
response_model=MovieResponseSchema: FastAPI filters the returned ORM object
down to exactly the schema fields id, name, date, score, overview. -/
def serializeMovieResponse (m : MovieModel) : List (String × JVal) :=
  [("id", JVal.num m.id), ("name", JVal.str m.name),
   ("date", JVal.date m.date), ("score", JVal.num m.score),
   ("overview", JVal.str m.overview)]

/-- POST /movies/ endpoint including the pydantic validation step that runs
before the handler: an invalid payload never reaches create_movie. -/
def createEndpoint (today : Int) (p : MovieCreateSchema) (db : DB) :
    DB × Except ApiError (List (String × JVal)) :=
  if MovieCreateValid today p then
    match create_movie p db with
    | (db1, Except.ok m) => (db1, Except.ok (serializeMovieResponse m))
    | (db1, Except.error e) => (db1, Except.error e)
  else (db, Except.error ApiError.invalidInput)

/-- Summary representation of one movie in the list response
(MovieResponseSchema). -/
structure MovieResponseSchema where
  id : Nat
  name : String
  date : Int
  score : ℚ
  overview : String
deriving DecidableEq

def movieResponseOf (m : MovieModel) : MovieResponseSchema :=
  { id := m.id, name := m.name, date := m.date, score := m.score,
    overview := m.overview }

/-- List response body (MoviesPage schema). -/
structure MoviesPage where
  movies : List MovieResponseSchema
  prev_page : Option String
  next_page : Option String
  total_pages : Nat
  total_items : Nat
deriving DecidableEq

/-- Insert a movie into a list kept sorted by id descending. -/
def insertDesc (m : MovieModel) : List MovieModel → List MovieModel
  | [] => [m]
  | x :: xs => if x.id ≤ m.id then m :: x :: xs else x :: insertDesc m xs

/-- The ordered query select(MovieModel).order_by(MovieModel.id.desc()):
the movies table sorted by id descending. -/
def sortByIdDesc : List MovieModel → List MovieModel
  | [] => []
  | x :: xs => insertDesc x (sortByIdDesc xs)

/-- Item slice computed by the pagination collaborator for one page: the
per_page-sized slice starting at offset (page-1)*per_page of the movies
sorted by id descending. -/
def pageItems (page per_page : Nat) (db : DB) : List MovieModel :=
  ((sortByIdDesc db.movies).drop ((page - 1) * per_page)).take per_page

/-- GET /movies/ handler (get_movies). The pagination collaborator
(fastapi_pagination apaginate with Params page/size) is modelled from the
spec as the standard page/offset math over the ordered query: the page
items are the slice pageItems, total is the row count and pages the
ceiling of total / per_page. The handler itself then raises 404 when
total == 0 or the item slice is empty, and otherwise builds the MoviesPage
body with the prev/next links. -/
def get_movies (page per_page : Nat) (db : DB) : DB × Except ApiError MoviesPage :=
  let sorted := sortByIdDesc db.movies
  let total := sorted.length
  let items := pageItems page per_page db
  let pages := (total + per_page - 1) / per_page
  if total == 0 || items.isEmpty then
    (db, Except.error ApiError.notFound)
  else
    (db, Except.ok
      { movies := items.map movieResponseOf,
        prev_page :=
          if 1 < page then
            some ("/theater/movies/?page=" ++ toString (page - 1) ++
                  "&per_page=" ++ toString per_page)
          else none,
        next_page :=
          if page < pages then
            some ("/theater/movies/?page=" ++ toString (page + 1) ++
                  "&per_page=" ++ toString per_page)
          else none,
        total_pages := pages,
        total_items := total })

/-- Detail response body (MovieDetailResponseSchema) with nested
lookup-entity representations. The joinedload of the country is the row
matching the foreign key; the three collections are the lookup rows linked
through the join lists. -/
structure MovieDetailResponseSchema where
  id : Nat
  name : String
  date : Int
  score : ℚ
  overview : String
  status : String
  budget : ℚ
  revenue : ℚ
  country : Option CountryModel
  genres : List GenreModel
  actors : List ActorModel
  languages : List LanguageModel
deriving DecidableEq

def toDetail (m : MovieModel) (db : DB) : MovieDetailResponseSchema :=
  { id := m.id, name := m.name, date := m.date, score := m.score,
    overview := m.overview, status := m.status, budget := m.budget,
    revenue := m.revenue,
    country := db.countries.find? (fun c => c.id == m.country_id),
    genres := db.genres.filter (fun g => m.genre_ids.contains g.id),
    actors := db.actors.filter (fun a => m.actor_ids.contains a.id),
    languages := db.languages.filter (fun l => m.language_ids.contains l.id) }

/-- GET /movies/{id}/ handler (get_movie): fetch by id with eager-loaded
relations; 404 when absent. -/
def get_movie (movie_id : Nat) (db : DB) :
    DB × Except ApiError MovieDetailResponseSchema :=
  match db.movies.find? (fun m => m.id == movie_id) with
  | none => (db, Except.error ApiError.notFound)
  | some m => (db, Except.ok (toDetail m db))

/-- DELETE /movies/{id}/ handler (delete_movie): fetch by id, 404 when
absent, otherwise the movie row is deleted and committed. Its join lists
disappear with the row; no lookup table is touched. -/
def delete_movie (movie_id : Nat) (db : DB) : DB × Except ApiError Unit :=
  match db.movies.find? (fun m => m.id == movie_id) with
  | none => (db, Except.error ApiError.notFound)
  | some _ =>
    ({ db with movies := db.movies.eraseP (fun m => m.id == movie_id) },
     Except.ok ())

/-- Validated partial-update payload (MovieUpdateSchema). Each field is an
Option of Option: none is a field absent from the payload (excluded by
model_dump exclude_unset), some none is a field explicitly set to null
(Optional accepts it and it survives exclude_unset), some (some v) is a
field explicitly set to the value v. -/
structure MovieUpdateSchema where
  name : Option (Option String) := none
  date : Option (Option Int) := none
  score : Option (Option ℚ) := none
  overview : Option (Option String) := none
  status : Option (Option MovieStatusEnum) := none
  budget : Option (Option ℚ) := none
  revenue : Option (Option ℚ) := none
deriving DecidableEq

/-- One setattr from the update loop: an absent field keeps the current
column value, a present value replaces it, and an explicit null makes the
later commit fail. Modelled from the spec: database/models.py is absent
from the sources; the spec data model declares every scalar movie column
with a definite value, so assigning null violates its NOT NULL constraint
when the transaction commits. -/
def appOpt {α : Type} (cur : α) : Option (Option α) → Option α
  | none => some cur
  | some (some v) => some v
  | some none => none

/-- The field-assignment loop of update_movie followed by the commit: every
field present in the dump is assigned in declaration order, and the result
is none exactly when the commit raises (an explicit null hit a NOT NULL
column). -/
def applySet (m : MovieModel) (u : MovieUpdateSchema) : Option MovieModel := do
  let name ← appOpt m.name u.name
  let date ← appOpt m.date u.date
  let score ← appOpt m.score u.score
  let overview ← appOpt m.overview u.overview
  let status ← appOpt m.status (u.status.map (Option.map statusValue))
  let budget ← appOpt m.budget u.budget
  let revenue ← appOpt m.revenue u.revenue
  pure { m with name := name, date := date, score := score,
                overview := overview, status := status, budget := budget,
                revenue := revenue }

/-- PATCH /movies/{id}/ handler body (update_movie): fetch by id, 404 when
absent; the assignments and the commit run in the try block, and any
exception rolls the transaction back (store unchanged) and maps to the one
generic 400 invalid-input error. -/
def update_movie (movie_id : Nat) (u : MovieUpdateSchema) (db : DB) :
    DB × Except ApiError Unit :=
  match db.movies.find? (fun m => m.id == movie_id) with
  | none => (db, Except.error ApiError.notFound)
  | some m =>
    match applySet m u with
    | some m2 =>
      ({ db with movies :=
           db.movies.map (fun mv => if mv.id == movie_id then m2 else mv) },
       Except.ok ())
    | none => (db, Except.error ApiError.invalidInput)

def asStr : JVal → Option String
  | JVal.str s => some s
  | _ => none

def asNum : JVal → Option ℚ
  | JVal.num q => some q
  | _ => none

def asDate : JVal → Option Int
  | JVal.date d => some d
  | _ => none

/-- Pydantic validation of one optional field of MovieUpdateSchema against
a raw payload: a missing key is unset, an explicit null passes (the field
is Optional with default None, and Field constraints do not apply to None),
a value of the wrong shape is a validation error, and a coerced value must
satisfy the Field constraints declared for that field. -/
def parseOptField {α : Type} (kvs : List (String × JVal)) (key : String)
    (coerce : JVal → Option α) (check : α → Bool) :
    Option (Option (Option α)) :=
  match kvs.lookup key with
  | none => some none
  | some JVal.null => some (some none)
  | some v =>
    match coerce v with
    | none => none
    | some a => if check a then some (some (some a)) else none

/-- Pydantic parse and validation of a raw PATCH body into
MovieUpdateSchema (schemas/movies.py lines 81-88). The declared fields are
name (no constraint re-declared: no max_length), date (no bound validator
re-declared), score with ge=0 le=100, overview, status against the enum,
budget with ge=0 and revenue with ge=0. Keys outside the declared fields
are ignored (default pydantic extra behavior), so the relationship keys of
the creation schema are silently dropped here. -/
def parseMovieUpdate (kvs : List (String × JVal)) : Option MovieUpdateSchema := do
  let name ← parseOptField kvs "name" asStr (fun _ => true)
  let date ← parseOptField kvs "date" asDate (fun _ => true)
  let score ← parseOptField kvs "score" asNum
    (fun q => decide (0 ≤ q) && decide (q ≤ 100))
  let overview ← parseOptField kvs "overview" asStr (fun _ => true)
  let status ← parseOptField kvs "status"
    (fun v => (asStr v).bind parseStatus) (fun _ => true)
  let budget ← parseOptField kvs "budget" asNum (fun q => decide (0 ≤ q))
  let revenue ← parseOptField kvs "revenue" asNum (fun q => decide (0 ≤ q))
  pure { name := name, date := date, score := score, overview := overview,
         status := status, budget := budget, revenue := revenue }

/-- PATCH /movies/{id}/ endpoint including the validation step that runs
before the handler; a payload rejected by MovieUpdateSchema never reaches
update_movie and surfaces as the invalid-input error kind. -/
def updateEndpoint (movie_id : Nat) (kvs : List (String × JVal)) (db : DB) :
    DB × Except ApiError Unit :=
  match parseMovieUpdate kvs with
  | none => (db, Except.error ApiError.invalidInput)
  | some u => update_movie movie_id u db

/-! ## Sample data used by concrete witnesses -/

/-- The empty catalog. -/
def dbEmpty : DB :=
  { movies := [], countries := [], genres := [], actors := [], languages := [] }

/-- The creation payload of the Dune example from the spec (the release
date 2021-10-22 is day number 18922; the actor name is kept ASCII). -/
def duneInput : MovieCreateSchema :=
  { name := "Dune", date := 18922, score := 83, overview := "Epic",
    status := MovieStatusEnum.released, budget := 165000000,
    revenue := 402000000, country := "USA", genres := ["Sci-Fi"],
    actors := ["Timothee Chalamet"], languages := ["English"] }

/-- The movie row that creating duneInput on the empty catalog commits. -/
def duneMovie : MovieModel :=
  { id := 1, name := "Dune", date := 18922, score := 83, overview := "Epic",
    status := "Released", budget := 165000000, revenue := 402000000,
    country_id := 1, genre_ids := [1], actor_ids := [1], language_ids := [1] }

/-- The store after creating the Dune movie on the empty catalog. -/
def db1 : DB := (create_movie duneInput dbEmpty).1

/-- A second creation payload sharing the country code and the genre name
with duneInput but not its (name, date) pair. -/
def tenetInput : MovieCreateSchema :=
  { name := "Tenet", date := 18500, score := 74, overview := "Inverted",
    status := MovieStatusEnum.released, budget := 200000000,
    revenue := 365000000, country := "USA", genres := ["Sci-Fi"],
    actors := ["John David Washington"], languages := ["English"] }

/-- The store holding both sample movies, which share the Sci-Fi genre. -/
def dbBoth : DB := (create_movie tenetInput db1).1

/-! ## Ordering lemmas for the paginated list -/

theorem length_insertDesc (m : MovieModel) (l : List MovieModel) :
    (insertDesc m l).length = l.length + 1 := by
  induction l with
  | nil => rfl
  | cons x xs ih =>
    rw [insertDesc]
    by_cases hx : x.id ≤ m.id
    · rw [if_pos hx]; simp
    · rw [if_neg hx]; simp [ih]

theorem length_sortByIdDesc (l : List MovieModel) :
    (sortByIdDesc l).length = l.length := by
  induction l with
  | nil => rfl
  | cons x xs ih => rw [sortByIdDesc, length_insertDesc, ih, List.length_cons]

theorem mem_insertDesc {y m : MovieModel} {l : List MovieModel} :
    y ∈ insertDesc m l ↔ y = m ∨ y ∈ l := by
  induction l with
  | nil => simp [insertDesc]
  | cons x xs ih =>
    rw [insertDesc]
    by_cases hx : x.id ≤ m.id
    · rw [if_pos hx]; simp [List.mem_cons]
    · rw [if_neg hx]; simp [List.mem_cons, ih]; tauto

theorem pairwise_insertDesc (m : MovieModel) (l : List MovieModel)
    (h : l.Pairwise (fun a b => b.id ≤ a.id)) :
    (insertDesc m l).Pairwise (fun a b => b.id ≤ a.id) := by
  induction l with
  | nil => simp [insertDesc]
  | cons x xs ih =>
    rw [insertDesc]
    rcases List.pairwise_cons.mp h with ⟨hxall, hxs⟩
    by_cases hx : x.id ≤ m.id
    · rw [if_pos hx]
      refine List.pairwise_cons.mpr ⟨?_, h⟩
      intro y hy
      rcases List.mem_cons.mp hy with rfl | hy
      · exact hx
      · exact le_trans (hxall y hy) hx
    · rw [if_neg hx]
      refine List.pairwise_cons.mpr ⟨?_, ih hxs⟩
      intro y hy
      rcases mem_insertDesc.mp hy with rfl | hy
      · omega
      · exact hxall y hy

theorem sorted_sortByIdDesc (l : List MovieModel) :
    (sortByIdDesc l).Pairwise (fun a b => b.id ≤ a.id) := by
  induction l with
  | nil => simp [sortByIdDesc]
  | cons x xs ih => exact pairwise_insertDesc x (sortByIdDesc xs) ih

theorem length_pageItems (page per_page : Nat) (db : DB) :
    (pageItems page per_page db).length =
      min per_page (db.movies.length - (page - 1) * per_page) := by
  simp [pageItems, List.length_take, List.length_drop, length_sortByIdDesc,
        inf_eq_min]

theorem pageItems_sorted (page per_page : Nat) (db : DB) :
    (pageItems page per_page db).Pairwise (fun a b => b.id ≤ a.id) := by
  refine List.Pairwise.sublist ?_ (sorted_sortByIdDesc db.movies)
  exact List.Sublist.trans (List.take_sublist _ _) (List.drop_sublist _ _)

theorem pageItems_of_nil (page per_page : Nat) (db : DB)
    (h : db.movies = []) : pageItems page per_page db = [] := by
  simp [pageItems, h, sortByIdDesc]

/-- The 404 branch of get_movies fires exactly when the page item slice is
empty (a zero total forces an empty slice as well). -/
theorem get_movies_error_iff (page per_page : Nat) (db : DB) :
    (get_movies page per_page db).2 = Except.error ApiError.notFound ↔
      pageItems page per_page db = [] := by
  simp only [get_movies]
  by_cases h : ((sortByIdDesc db.movies).length == 0 ||
      (pageItems page per_page db).isEmpty) = true
  · rw [if_pos h]
    simp only [true_iff]
    rcases Bool.or_eq_true_iff.mp h with h0 | hemp
    · have hlen : db.movies.length = 0 := by
        have h0a : (sortByIdDesc db.movies).length = 0 := by simpa using h0
        rwa [length_sortByIdDesc] at h0a
      exact pageItems_of_nil page per_page db (List.length_eq_zero.mp hlen)
    · exact List.isEmpty_iff.mp hemp
  · rw [if_neg h]
    simp only [reduceCtorEq, false_iff]
    intro hcontra
    exact h (by simp [hcontra])

/-- The success branch of get_movies: with a nonempty page item slice the
endpoint commits nothing and returns the page body built from the slice. -/
theorem get_movies_ok (page per_page : Nat) (db : DB)
    (h : pageItems page per_page db ≠ []) :
    get_movies page per_page db =
      (db, Except.ok
        { movies := (pageItems page per_page db).map movieResponseOf,
          prev_page :=
            if 1 < page then
              some ("/theater/movies/?page=" ++ toString (page - 1) ++
                    "&per_page=" ++ toString per_page)
            else none,
          next_page :=
            if page <
                ((sortByIdDesc db.movies).length + per_page - 1) / per_page then
              some ("/theater/movies/?page=" ++ toString (page + 1) ++
                    "&per_page=" ++ toString per_page)
            else none,
          total_pages :=
            ((sortByIdDesc db.movies).length + per_page - 1) / per_page,
          total_items := (sortByIdDesc db.movies).length }) := by
  simp only [get_movies]
  rw [if_neg]
  intro hcond
  rcases Bool.or_eq_true_iff.mp hcond with h0 | hemp
  · have hlen : db.movies.length = 0 := by
      have h0a : (sortByIdDesc db.movies).length = 0 := by simpa using h0
      rwa [length_sortByIdDesc] at h0a
    exact h (pageItems_of_nil page per_page db (List.length_eq_zero.mp hlen))
  · exact h (List.isEmpty_iff.mp hemp)

/-- C5: for every page and per_page, the list endpoint fails with NotFound
exactly when the selected page slice holds zero items — in particular it
does so for every page of an empty catalog, and for a page number beyond
the last page of a nonempty catalog; any nonempty slice is served. -/
theorem list_notFound_iff_empty_page (page per_page : Nat) (db : DB) :
    (db.movies = [] →
      (get_movies page per_page db).2 = Except.error ApiError.notFound) ∧
    ((get_movies page per_page db).2 = Except.error ApiError.notFound ↔
      pageItems page per_page db = []) := by
  refine ⟨?_, get_movies_error_iff page per_page db⟩
  intro h
  exact (get_movies_error_iff page per_page db).mpr
    (pageItems_of_nil page per_page db h)

/-- C8: for page at least 1 and per_page in [1, 20] over a nonempty
catalog, the list endpoint serves exactly min(per_page, remaining) movie
summaries ordered by id descending, where remaining is what is left after
skipping the first (page-1)*per_page rows; when nothing remains the
endpoint reports NotFound instead. -/
theorem list_returns_min_remaining_sorted (page per_page : Nat) (db : DB)
    (hpage : 1 ≤ page) (hpp1 : 1 ≤ per_page) (hpp2 : per_page ≤ 20)
    (hne : db.movies ≠ []) :
    (db.movies.length ≤ (page - 1) * per_page →
      (get_movies page per_page db).2 = Except.error ApiError.notFound) ∧
    ((page - 1) * per_page < db.movies.length →
      ∃ resp, (get_movies page per_page db).2 = Except.ok resp ∧
        resp.movies.length =
          min per_page (db.movies.length - (page - 1) * per_page) ∧
        resp.movies.Pairwise (fun a b => b.id ≤ a.id)) := by
  constructor
  · intro hle
    refine (get_movies_error_iff page per_page db).mpr ?_
    have := length_pageItems page per_page db
    have hz : (pageItems page per_page db).length = 0 := by omega
    exact List.length_eq_zero.mp hz
  · intro hlt
    have hlen := length_pageItems page per_page db
    have hne2 : pageItems page per_page db ≠ [] := by
      intro hcontra
      rw [hcontra] at hlen
      simp at hlen
      omega
    rw [get_movies_ok page per_page db hne2]
    refine ⟨_, rfl, ?_, ?_⟩
    · rw [List.length_map, hlen]
    · exact List.pairwise_map.mpr (pageItems_sorted page per_page db)

/-- Witness for C8 at the concrete one-movie catalog db1 with page 1 and
per_page 1. -/
theorem list_returns_min_remaining_sorted_witness :
    ∃ resp, (get_movies 1 1 db1).2 = Except.ok resp ∧
      resp.movies.length = min 1 (db1.movies.length - (1 - 1) * 1) ∧
      resp.movies.Pairwise (fun a b => b.id ≤ a.id) :=
  (list_returns_min_remaining_sorted 1 1 db1 (by decide) (by decide)
    (by decide) (by decide)).2 (by decide)

/-! ## Create: conflict, get-or-create resolution, response shape -/

/-- The movie row built by the success branch of create_movie, with the
let-bound resolutions written out. -/
def createdMovie (p : MovieCreateSchema) (db : DB) : MovieModel :=
  { id := freshId (db.movies.map (fun m => m.id)),
    name := p.name, date := p.date, score := p.score,
    overview := p.overview, status := statusValue p.status,
    budget := p.budget, revenue := p.revenue,
    country_id := (getOrCreateCountry p.country db.countries).2.id,
    genre_ids := (resolveNamed p.genres db.genres).2.map (fun g => g.id),
    actor_ids := (resolveNamed p.actors db.actors).2.map (fun a => a.id),
    language_ids :=
      (resolveNamed p.languages db.languages).2.map (fun l => l.id) }

theorem create_movie_ok (p : MovieCreateSchema) (db : DB)
    (hany : db.movies.any (fun m => m.name == p.name && m.date == p.date)
      = false) :
    create_movie p db =
      ({ movies := db.movies ++ [createdMovie p db],
         countries := (getOrCreateCountry p.country db.countries).1,
         genres := (resolveNamed p.genres db.genres).1,
         actors := (resolveNamed p.actors db.actors).1,
         languages := (resolveNamed p.languages db.languages).1 },
       Except.ok (createdMovie p db)) := by
  simp [create_movie, hany, createdMovie]

theorem any_dup_eq_false (p : MovieCreateSchema) (db : DB)
    (hnodup : ∀ m ∈ db.movies, ¬(m.name = p.name ∧ m.date = p.date)) :
    db.movies.any (fun m => m.name == p.name && m.date == p.date) = false := by
  apply List.any_eq_false.mpr
  intro x hx
  simpa [Bool.and_eq_true, beq_iff_eq] using hnodup x hx

theorem getOrCreateNamed_snd_name (nm : String) (tbl : List NamedRow) :
    (getOrCreateNamed nm tbl).2.name = nm := by
  unfold getOrCreateNamed
  cases hf : tbl.find? (fun e => e.name == nm) with
  | none => simp
  | some e =>
    simpa [beq_iff_eq] using List.find?_some hf

theorem getOrCreateNamed_snd_mem (nm : String) (tbl : List NamedRow) :
    (getOrCreateNamed nm tbl).2 ∈ (getOrCreateNamed nm tbl).1 := by
  unfold getOrCreateNamed
  cases hf : tbl.find? (fun e => e.name == nm) with
  | none => simp
  | some e => simpa using List.find?_mem hf

theorem getOrCreateNamed_mono (nm : String) (tbl : List NamedRow)
    (e : NamedRow) (he : e ∈ tbl) : e ∈ (getOrCreateNamed nm tbl).1 := by
  unfold getOrCreateNamed
  cases hf : tbl.find? (fun x => x.name == nm) with
  | none => simp [he]
  | some x => simpa using he

theorem resolveNamed_mono (names : List String) (tbl : List NamedRow)
    (e : NamedRow) (he : e ∈ tbl) : e ∈ (resolveNamed names tbl).1 := by
  induction names generalizing tbl with
  | nil => simpa [resolveNamed] using he
  | cons a rest ih =>
    rw [resolveNamed]
    exact ih _ (getOrCreateNamed_mono a tbl e he)

theorem resolveNamed_covers (names : List String) (tbl : List NamedRow) :
    ∀ nm ∈ names, ∃ e ∈ (resolveNamed names tbl).1, e.name = nm := by
  induction names generalizing tbl with
  | nil => simp
  | cons a rest ih =>
    intro nm hnm
    rcases List.mem_cons.mp hnm with rfl | hnm
    · refine ⟨(getOrCreateNamed nm tbl).2, ?_, getOrCreateNamed_snd_name nm tbl⟩
      rw [resolveNamed]
      exact resolveNamed_mono rest _ _ (getOrCreateNamed_snd_mem nm tbl)
    · rw [resolveNamed]
      exact ih _ nm hnm

theorem getOrCreateCountry_snd_code (code : String)
    (tbl : List CountryModel) : (getOrCreateCountry code tbl).2.code = code := by
  unfold getOrCreateCountry
  cases hf : tbl.find? (fun c => c.code == code) with
  | none => simp
  | some c => simpa [beq_iff_eq] using List.find?_some hf

theorem getOrCreateCountry_snd_mem (code : String)
    (tbl : List CountryModel) :
    (getOrCreateCountry code tbl).2 ∈ (getOrCreateCountry code tbl).1 := by
  unfold getOrCreateCountry
  cases hf : tbl.find? (fun c => c.code == code) with
  | none => simp
  | some c => simpa using List.find?_mem hf

/-- C4: a creation payload whose (name, date) pair matches a stored movie
is rejected with Conflict, and the store is returned exactly as it was:
no movie row and no lookup row is created or modified. -/
theorem create_duplicate_conflict_no_writes (today : Int)
    (p : MovieCreateSchema) (db : DB) (hv : MovieCreateValid today p = true)
    (m0 : MovieModel) (hm0 : m0 ∈ db.movies)
    (hname : m0.name = p.name) (hdate : m0.date = p.date) :
    createEndpoint today p db = (db, Except.error ApiError.conflict) ∧
    create_movie p db = (db, Except.error ApiError.conflict) := by
  have hany : db.movies.any (fun m => m.name == p.name && m.date == p.date)
      = true :=
    List.any_eq_true.mpr ⟨m0, hm0, by simp [hname, hdate]⟩
  have hcm : create_movie p db = (db, Except.error ApiError.conflict) := by
    simp [create_movie, hany]
  exact ⟨by simp [createEndpoint, hv, hcm], hcm⟩

/-- Witness for C4: re-creating the Dune movie on the store that already
holds it is a conflict that leaves the store untouched. -/
theorem create_duplicate_conflict_no_writes_witness :
    createEndpoint 18922 duneInput db1 =
      (db1, Except.error ApiError.conflict) :=
  (create_duplicate_conflict_no_writes 18922 duneInput db1 (by decide)
    duneMovie (by decide) (by decide) (by decide)).1

/-- C6: country resolution in create is get-or-create by code: with no
conflicting movie, if no country row carries the payload code then the
committed store appends exactly one new country row with that code and no
display name; if one exists the table is returned unchanged, so a second
create with the same code does not grow it. -/
theorem create_country_get_or_create (p : MovieCreateSchema) (db : DB)
    (hnodup : ∀ m ∈ db.movies, ¬(m.name = p.name ∧ m.date = p.date)) :
    (db.countries.find? (fun c => c.code == p.country) = none →
      (create_movie p db).1.countries =
        db.countries ++
          [{ id := freshId (db.countries.map (fun r => r.id)),
             code := p.country, name := none }]) ∧
    (∀ c, db.countries.find? (fun c0 => c0.code == p.country) = some c →
      (create_movie p db).1.countries = db.countries) := by
  have hany := any_dup_eq_false p db hnodup
  rw [create_movie_ok p db hany]
  constructor
  · intro hf
    simp [getOrCreateCountry, hf]
  · intro c hf
    simp [getOrCreateCountry, hf]

/-- Witness for C6: creating Dune on the empty store inserts exactly the
row (1, USA, no name); creating Tenet on the resulting store, with the
same code, leaves the country table exactly as it was. -/
theorem create_country_get_or_create_witness :
    (create_movie duneInput dbEmpty).1.countries =
      [{ id := 1, code := "USA", name := none }] ∧
    (create_movie tenetInput db1).1.countries = db1.countries := by
  constructor
  · exact (create_country_get_or_create duneInput dbEmpty
      (by simp [dbEmpty])).1 (by rfl)
  · exact (create_country_get_or_create tenetInput db1
      (by decide)).2 { id := 1, code := "USA", name := none } (by rfl)

/-- C3 (amended): for every valid creation payload with no pre-existing
movie of the same name and date, create succeeds (201) and commits the
movie under a fresh system-assigned id with its lookup links resolved: the
committed country row carries the payload code and a row exists for every
genre, actor and language name. The creation response body itself carries
exactly the MovieResponseSchema fields id, name, date, score and overview
(the nested representations live in the detail endpoint instead). -/
theorem create_success_committed (today : Int) (p : MovieCreateSchema)
    (db : DB) (hv : MovieCreateValid today p = true)
    (hnodup : ∀ m ∈ db.movies, ¬(m.name = p.name ∧ m.date = p.date)) :
    ∃ m dbOut,
      createEndpoint today p db = (dbOut, Except.ok (serializeMovieResponse m)) ∧
      m.id = freshId (db.movies.map (fun mv => mv.id)) ∧
      m.name = p.name ∧ m.date = p.date ∧ m.score = p.score ∧
      m.overview = p.overview ∧ m.status = statusValue p.status ∧
      m.budget = p.budget ∧ m.revenue = p.revenue ∧
      dbOut.movies = db.movies ++ [m] ∧
      (serializeMovieResponse m).map Prod.fst =
        ["id", "name", "date", "score", "overview"] ∧
      (∃ c ∈ dbOut.countries, c.code = p.country ∧ m.country_id = c.id) ∧
      (∀ nm ∈ p.genres, ∃ g ∈ dbOut.genres, g.name = nm) ∧
      (∀ nm ∈ p.actors, ∃ a ∈ dbOut.actors, a.name = nm) ∧
      (∀ nm ∈ p.languages, ∃ l ∈ dbOut.languages, l.name = nm) := by
  have hany := any_dup_eq_false p db hnodup
  have hok := create_movie_ok p db hany
  refine ⟨createdMovie p db,
    { movies := db.movies ++ [createdMovie p db],
      countries := (getOrCreateCountry p.country db.countries).1,
      genres := (resolveNamed p.genres db.genres).1,
      actors := (resolveNamed p.actors db.actors).1,
      languages := (resolveNamed p.languages db.languages).1 },
    ?_, rfl, rfl, rfl, rfl, rfl, rfl, rfl, rfl,
    rfl, rfl, ?_, ?_, ?_, ?_⟩
  · simp [createEndpoint, hv, hok]
  · exact ⟨(getOrCreateCountry p.country db.countries).2,
      getOrCreateCountry_snd_mem p.country db.countries,
      getOrCreateCountry_snd_code p.country db.countries, rfl⟩
  · exact resolveNamed_covers p.genres db.genres
  · exact resolveNamed_covers p.actors db.actors
  · exact resolveNamed_covers p.languages db.languages

/-- Witness for C3 at the Dune example payload on the empty catalog. -/
theorem create_success_committed_witness :
    ∃ m dbOut,
      createEndpoint 18922 duneInput dbEmpty =
        (dbOut, Except.ok (serializeMovieResponse m)) ∧
      m.id = freshId (dbEmpty.movies.map (fun mv => mv.id)) ∧
      m.name = duneInput.name ∧ m.date = duneInput.date ∧
      m.score = duneInput.score ∧ m.overview = duneInput.overview ∧
      m.status = statusValue duneInput.status ∧
      m.budget = duneInput.budget ∧ m.revenue = duneInput.revenue ∧
      dbOut.movies = dbEmpty.movies ++ [m] ∧
      (serializeMovieResponse m).map Prod.fst =
        ["id", "name", "date", "score", "overview"] ∧
      (∃ c ∈ dbOut.countries, c.code = duneInput.country ∧
        m.country_id = c.id) ∧
      (∀ nm ∈ duneInput.genres, ∃ g ∈ dbOut.genres, g.name = nm) ∧
      (∀ nm ∈ duneInput.actors, ∃ a ∈ dbOut.actors, a.name = nm) ∧
      (∀ nm ∈ duneInput.languages, ∃ l ∈ dbOut.languages, l.name = nm) :=
  create_success_committed 18922 duneInput dbEmpty (by decide)
    (by simp [dbEmpty])

/-- Counterexample for C3 as stated: at the Dune example input itself the
201 response body is the five MovieResponseSchema entries and holds no
country and no genres entry at all — the nested representations the claim
promises are absent from the creation response. -/
theorem create_response_has_no_nested_entities :
    (createEndpoint 18922 duneInput dbEmpty).2 =
      Except.ok (serializeMovieResponse duneMovie) ∧
    (serializeMovieResponse duneMovie).lookup "country" = none ∧
    (serializeMovieResponse duneMovie).lookup "genres" = none :=
  ⟨rfl, rfl, rfl⟩

/-! ## Update: frame conditions, validation, failure handling -/

theorem appOpt_eq_some {α : Type} (cur : α) (o : Option (Option α)) (v : α)
    (h : appOpt cur o = some v) : v = o.join.getD cur := by
  cases o with
  | none =>
    simp only [appOpt, Option.some_inj] at h
    simp [← h]
  | some oo =>
    cases oo with
    | none => simp [appOpt] at h
    | some w =>
      simp only [appOpt, Option.some_inj] at h
      simp [← h]

theorem join_map_comm {α β : Type} (f : α → β) (o : Option (Option α)) :
    (o.map (Option.map f)).join = o.join.map f := by
  cases o with
  | none => rfl
  | some oo => cases oo <;> rfl

/-- Characterization of a successful pass of the assignment loop plus
commit: every field explicitly set in the payload lands in the row, every
unset field keeps its prior value, and the id, the country foreign key and
the three join lists are untouched. -/
theorem applySet_eq_some (m m2 : MovieModel) (u : MovieUpdateSchema)
    (h : applySet m u = some m2) :
    m2.id = m.id ∧
    m2.name = u.name.join.getD m.name ∧
    m2.date = u.date.join.getD m.date ∧
    m2.score = u.score.join.getD m.score ∧
    m2.overview = u.overview.join.getD m.overview ∧
    m2.status = (u.status.join.map statusValue).getD m.status ∧
    m2.budget = u.budget.join.getD m.budget ∧
    m2.revenue = u.revenue.join.getD m.revenue ∧
    m2.country_id = m.country_id ∧
    m2.genre_ids = m.genre_ids ∧
    m2.actor_ids = m.actor_ids ∧
    m2.language_ids = m.language_ids := by
  rw [applySet] at h
  obtain ⟨nm, h1, h⟩ := Option.bind_eq_some.mp h
  obtain ⟨dt, h2, h⟩ := Option.bind_eq_some.mp h
  obtain ⟨sc, h3, h⟩ := Option.bind_eq_some.mp h
  obtain ⟨ov, h4, h⟩ := Option.bind_eq_some.mp h
  obtain ⟨st, h5, h⟩ := Option.bind_eq_some.mp h
  obtain ⟨bg, h6, h⟩ := Option.bind_eq_some.mp h
  obtain ⟨rv, h7, h⟩ := Option.bind_eq_some.mp h
  simp only [Option.pure_def, Option.some_inj] at h
  subst h
  refine ⟨rfl, appOpt_eq_some _ _ _ h1, appOpt_eq_some _ _ _ h2,
    appOpt_eq_some _ _ _ h3, appOpt_eq_some _ _ _ h4, ?_,
    appOpt_eq_some _ _ _ h6, appOpt_eq_some _ _ _ h7, rfl, rfl, rfl, rfl⟩
  rw [← join_map_comm]
  exact appOpt_eq_some _ _ _ h5

/-- C1: a successful update assigns exactly the scalar fields explicitly
present in the payload; every omitted field, the id, the country link and
the genre/actor/language links keep their prior values, every other movie
row is untouched, and no lookup table changes. -/
theorem update_applies_exactly_present_fields (db : DB) (movie_id : Nat)
    (u : MovieUpdateSchema) (m m2 : MovieModel)
    (hfind : db.movies.find? (fun mv => mv.id == movie_id) = some m)
    (happ : applySet m u = some m2) :
    update_movie movie_id u db =
      ({ db with movies :=
           db.movies.map (fun mv => if mv.id == movie_id then m2 else mv) },
       Except.ok ()) ∧
    (update_movie movie_id u db).1.countries = db.countries ∧
    (update_movie movie_id u db).1.genres = db.genres ∧
    (update_movie movie_id u db).1.actors = db.actors ∧
    (update_movie movie_id u db).1.languages = db.languages ∧
    (∀ mv ∈ db.movies, mv.id ≠ movie_id →
      mv ∈ (update_movie movie_id u db).1.movies) ∧
    m2.id = m.id ∧
    m2.name = u.name.join.getD m.name ∧
    m2.date = u.date.join.getD m.date ∧
    m2.score = u.score.join.getD m.score ∧
    m2.overview = u.overview.join.getD m.overview ∧
    m2.status = (u.status.join.map statusValue).getD m.status ∧
    m2.budget = u.budget.join.getD m.budget ∧
    m2.revenue = u.revenue.join.getD m.revenue ∧
    m2.country_id = m.country_id ∧
    m2.genre_ids = m.genre_ids ∧
    m2.actor_ids = m.actor_ids ∧
    m2.language_ids = m.language_ids := by
  have hupd : update_movie movie_id u db =
      ({ db with movies :=
           db.movies.map (fun mv => if mv.id == movie_id then m2 else mv) },
       Except.ok ()) := by
    simp [update_movie, hfind, happ]
  have hfields := applySet_eq_some m m2 u happ
  refine ⟨hupd, by rw [hupd], by rw [hupd], by rw [hupd], by rw [hupd],
    ?_, hfields.1, hfields.2.1, hfields.2.2.1, hfields.2.2.2.1,
    hfields.2.2.2.2.1, hfields.2.2.2.2.2.1, hfields.2.2.2.2.2.2.1,
    hfields.2.2.2.2.2.2.2.1, hfields.2.2.2.2.2.2.2.2.1,
    hfields.2.2.2.2.2.2.2.2.2.1, hfields.2.2.2.2.2.2.2.2.2.2.1,
    hfields.2.2.2.2.2.2.2.2.2.2.2⟩
  intro mv hmv hne
  rw [hupd]
  refine List.mem_map.mpr ⟨mv, hmv, ?_⟩
  rw [if_neg]
  simp [hne]

/-- Payload of the update(id, score 42) example: only score is present. -/
def scorePayload : MovieUpdateSchema := { score := some (some 42) }

/-- The Dune row after the score-only update. -/
def duneScored : MovieModel := { duneMovie with score := 42 }

/-- Witness for C1: the score-only update on db1 commits exactly the row
with only score replaced. -/
theorem update_applies_exactly_present_fields_witness :
    update_movie 1 scorePayload db1 =
      ({ db1 with movies :=
           db1.movies.map (fun mv => if mv.id == 1 then duneScored else mv) },
       Except.ok ()) :=
  (update_applies_exactly_present_fields db1 1 scorePayload duneMovie
    duneScored (by rfl) (by rfl)).1

/-- C7: when the commit of an update raises, the transaction is rolled
back — the endpoint hands back the store exactly as it was — and the
failure surfaces as the one generic invalid-input error. -/
theorem update_commit_failure_rolls_back (db : DB) (movie_id : Nat)
    (u : MovieUpdateSchema) (m : MovieModel)
    (hfind : db.movies.find? (fun mv => mv.id == movie_id) = some m)
    (hfail : applySet m u = none) :
    update_movie movie_id u db = (db, Except.error ApiError.invalidInput) := by
  simp [update_movie, hfind, hfail]

/-- Payload that makes the commit fail: score explicitly null. -/
def nullScorePayload : MovieUpdateSchema := { score := some none }

/-- Witness for C7: the explicit-null update on db1 rolls back and returns
the generic invalid-input error. -/
theorem update_commit_failure_rolls_back_witness :
    update_movie 1 nullScorePayload db1 =
      (db1, Except.error ApiError.invalidInput) :=
  update_commit_failure_rolls_back db1 1 nullScorePayload duneMovie
    (by rfl) (by rfl)

/-- C10: a PATCH payload carrying only relationship keys (country, genres,
actors, languages) and any other unknown key is accepted, not rejected:
MovieUpdateSchema silently drops the unknown keys, the endpoint answers 200
with its success body, and the store — relationships included — is exactly
unchanged. -/
theorem update_ignores_unknown_and_relationship_keys (db : DB)
    (movie_id : Nat) (m : MovieModel) (k : String) (v1 v2 v3 v4 v5 : JVal)
    (hWF : db.WF)
    (hfind : db.movies.find? (fun mv => mv.id == movie_id) = some m)
    (hk : k ∉ ["name", "date", "score", "overview", "status", "budget",
               "revenue"]) :
    updateEndpoint movie_id
      [("country", v1), ("genres", v2), ("actors", v3), ("languages", v4),
       (k, v5)] db = (db, Except.ok ()) := by
  simp only [List.mem_cons, List.mem_singleton, not_or] at hk
  obtain ⟨hk1, hk2, hk3, hk4, hk5, hk6, hk7, _⟩ := hk
  have e1 : ("name" == k) = false := beq_eq_false_iff_ne.mpr (Ne.symm hk1)
  have e2 : ("date" == k) = false := beq_eq_false_iff_ne.mpr (Ne.symm hk2)
  have e3 : ("score" == k) = false := beq_eq_false_iff_ne.mpr (Ne.symm hk3)
  have e4 : ("overview" == k) = false := beq_eq_false_iff_ne.mpr (Ne.symm hk4)
  have e5 : ("status" == k) = false := beq_eq_false_iff_ne.mpr (Ne.symm hk5)
  have e6 : ("budget" == k) = false := beq_eq_false_iff_ne.mpr (Ne.symm hk6)
  have e7 : ("revenue" == k) = false := beq_eq_false_iff_ne.mpr (Ne.symm hk7)
  have hparse : parseMovieUpdate
      [("country", v1), ("genres", v2), ("actors", v3), ("languages", v4),
       (k, v5)] =
      some { name := none, date := none, score := none, overview := none,
             status := none, budget := none, revenue := none } := by
    simp [parseMovieUpdate, parseOptField, List.lookup, e1, e2, e3, e4, e5,
          e6, e7]
  have hmem : m ∈ db.movies := List.mem_of_find?_eq_some hfind
  have hmid : m.id = movie_id := by simpa using List.find?_some hfind
  have hmapeq : db.movies.map
      (fun mv => if mv.id == movie_id then m else mv) = db.movies := by
    conv_rhs => rw [← List.map_id db.movies]
    apply List.map_congr_left
    intro mv hmv
    by_cases hc : (mv.id == movie_id) = true
    · have hideq : mv.id = m.id := by
        rw [hmid]
        simpa using hc
      have : mv = m := List.inj_on_of_nodup_map hWF hmv hmem hideq
      simp [hc, this]
    · simp [hc]
  simp only [updateEndpoint, hparse]
  simp only [update_movie, hfind]
  show ({ db with movies :=
      db.movies.map (fun mv => if mv.id == movie_id then m else mv) },
    Except.ok ()) = (db, Except.ok ())
  rw [hmapeq]

/-- Witness for C10: a payload of relationship keys plus an unknown key on
db1 answers success and leaves the store untouched. -/
theorem update_ignores_unknown_and_relationship_keys_witness :
    updateEndpoint 1
      [("country", JVal.str "FR"), ("genres", JVal.arr [JVal.str "Action"]),
       ("actors", JVal.arr []), ("languages", JVal.arr []),
       ("director", JVal.str "Villeneuve")] db1 = (db1, Except.ok ()) :=
  update_ignores_unknown_and_relationship_keys db1 1 duneMovie "director"
    (JVal.str "FR") (JVal.arr [JVal.str "Action"]) (JVal.arr [])
    (JVal.arr []) (JVal.str "Villeneuve") (by unfold DB.WF; decide)
    (by rfl) (by decide)

/-- A 256-character name, one past the creation limit of 255. -/
def longName : String := String.mk (List.replicate 256 'a')

/-- C2 (amended): a present score, budget, revenue or status field is
validated on update as at creation (score in [0, 100], budget and revenue
nonnegative, status an enum member) and a violation fails with the
invalid-input error leaving the store unchanged; but a present name or
date is not re-validated at all — a name of any length and a date
arbitrarily far in the future are accepted and assigned. -/
theorem update_validates_only_some_create_constraints (db : DB)
    (movie_id : Nat) :
    (∀ q : ℚ, ¬(0 ≤ q ∧ q ≤ 100) →
      updateEndpoint movie_id [("score", JVal.num q)] db =
        (db, Except.error ApiError.invalidInput)) ∧
    (∀ q : ℚ, ¬(0 ≤ q) →
      updateEndpoint movie_id [("budget", JVal.num q)] db =
        (db, Except.error ApiError.invalidInput)) ∧
    (∀ q : ℚ, ¬(0 ≤ q) →
      updateEndpoint movie_id [("revenue", JVal.num q)] db =
        (db, Except.error ApiError.invalidInput)) ∧
    (∀ s : String, parseStatus s = none →
      updateEndpoint movie_id [("status", JVal.str s)] db =
        (db, Except.error ApiError.invalidInput)) ∧
    (∀ nm : String, ∀ m, db.movies.find? (fun mv => mv.id == movie_id) = some m →
      updateEndpoint movie_id [("name", JVal.str nm)] db =
        ({ db with movies := db.movies.map (fun mv =>
             if mv.id == movie_id then { m with name := nm } else mv) },
         Except.ok ())) ∧
    (∀ d : Int, ∀ m, db.movies.find? (fun mv => mv.id == movie_id) = some m →
      updateEndpoint movie_id [("date", JVal.date d)] db =
        ({ db with movies := db.movies.map (fun mv =>
             if mv.id == movie_id then { m with date := d } else mv) },
         Except.ok ())) := by
  refine ⟨?_, ?_, ?_, ?_, ?_, ?_⟩
  · intro q hq
    have hb : (decide (0 ≤ q) && decide (q ≤ 100)) = false := by
      rcases Bool.eq_false_or_eq_true (decide (0 ≤ q) && decide (q ≤ 100))
        with h | h
      · rw [Bool.and_eq_true, decide_eq_true_eq, decide_eq_true_eq] at h
        exact absurd h hq
      · exact h
    simp [updateEndpoint, parseMovieUpdate, parseOptField, List.lookup,
          asNum, hb]
  · intro q hq
    have hb : decide (0 ≤ q) = false := decide_eq_false hq
    simp [updateEndpoint, parseMovieUpdate, parseOptField, List.lookup,
          asNum, hb]
  · intro q hq
    have hb : decide (0 ≤ q) = false := decide_eq_false hq
    simp [updateEndpoint, parseMovieUpdate, parseOptField, List.lookup,
          asNum, hb]
  · intro s hs
    simp [updateEndpoint, parseMovieUpdate, parseOptField, List.lookup,
          asStr, hs]
  · intro nm m hfind
    have hparse : parseMovieUpdate [("name", JVal.str nm)] =
        some { name := some (some nm), date := none, score := none,
               overview := none, status := none, budget := none,
               revenue := none } := by
      simp [parseMovieUpdate, parseOptField, List.lookup, asStr]
    simp only [updateEndpoint, hparse]
    simp only [update_movie, hfind]
    rfl
  · intro d m hfind
    have hparse : parseMovieUpdate [("date", JVal.date d)] =
        some { name := none, date := some (some d), score := none,
               overview := none, status := none, budget := none,
               revenue := none } := by
      simp [parseMovieUpdate, parseOptField, List.lookup, asDate]
    simp only [updateEndpoint, hparse]
    simp only [update_movie, hfind]
    rfl

set_option maxRecDepth 4000 in
/-- Witness for C2 at concrete payloads on db1: score 200, budget -1,
revenue -1 and an unknown status are rejected; the 256-character name and
a far-future date are accepted and assigned. -/
theorem update_validates_only_some_create_constraints_witness :
    (updateEndpoint 1 [("score", JVal.num 200)] db1 =
      (db1, Except.error ApiError.invalidInput)) ∧
    (updateEndpoint 1 [("budget", JVal.num (-1))] db1 =
      (db1, Except.error ApiError.invalidInput)) ∧
    (updateEndpoint 1 [("revenue", JVal.num (-1))] db1 =
      (db1, Except.error ApiError.invalidInput)) ∧
    (updateEndpoint 1 [("status", JVal.str "Cancelled")] db1 =
      (db1, Except.error ApiError.invalidInput)) ∧
    (updateEndpoint 1 [("name", JVal.str longName)] db1 =
      ({ db1 with movies := db1.movies.map (fun mv =>
           if mv.id == 1 then { duneMovie with name := longName } else mv) },
       Except.ok ())) ∧
    (updateEndpoint 1 [("date", JVal.date 999999)] db1 =
      ({ db1 with movies := db1.movies.map (fun mv =>
           if mv.id == 1 then { duneMovie with date := 999999 } else mv) },
       Except.ok ())) :=
  ⟨(update_validates_only_some_create_constraints db1 1).1 200 (by decide),
   (update_validates_only_some_create_constraints db1 1).2.1 (-1) (by decide),
   (update_validates_only_some_create_constraints db1 1).2.2.1 (-1)
     (by decide),
   (update_validates_only_some_create_constraints db1 1).2.2.2.1 "Cancelled"
     (by rfl),
   (update_validates_only_some_create_constraints db1 1).2.2.2.2.1 longName
     duneMovie (by rfl),
   (update_validates_only_some_create_constraints db1 1).2.2.2.2.2 999999
     duneMovie (by rfl)⟩

set_option maxRecDepth 4000 in
/-- Counterexample for C2 as stated: the 256-character name violates the
creation constraint (name at most 255 characters) yet the update endpoint
accepts it with success instead of failing with invalid input. -/
theorem update_accepts_overlong_name :
    255 < longName.length ∧
    (updateEndpoint 1 [("name", JVal.str longName)] db1).2 = Except.ok () :=
  ⟨by decide, by rfl⟩

/-! ## Delete -/

theorem find?_eraseP_eq_none (l : List MovieModel)
    (hnd : (l.map (fun m => m.id)).Nodup) (movie_id : Nat) :
    (l.eraseP (fun m => m.id == movie_id)).find?
      (fun m => m.id == movie_id) = none := by
  induction l with
  | nil => rfl
  | cons x xs ih =>
    rw [List.eraseP_cons]
    simp only [List.map_cons, List.nodup_cons] at hnd
    obtain ⟨hx, hxs⟩ := hnd
    by_cases hc : (x.id == movie_id) = true
    · rw [hc]
      simp only [cond_true]
      apply List.find?_eq_none.mpr
      intro y hy
      have hxid : x.id = movie_id := by simpa using hc
      have hyne : y.id ≠ movie_id := by
        intro hcontra
        exact hx (List.mem_map.mpr ⟨y, hy, by rw [hcontra, hxid]⟩)
      simpa using hyne
    · have hc2 : (x.id == movie_id) = false := by
        revert hc
        cases (x.id == movie_id) <;> simp
      rw [hc2]
      simp only [cond_false]
      rw [List.find?_cons_of_neg _ (by simp [hc2])]
      exact ih hxs

/-- C9: delete fails with NotFound when no movie has the id; otherwise it
removes exactly that movie row (its join lists go with it) in the
committed store, touches no lookup table, and — with unique movie ids — a
subsequent get of the same id answers NotFound. -/
theorem delete_removes_only_the_movie (db : DB) (movie_id : Nat) :
    (db.movies.find? (fun m => m.id == movie_id) = none →
      delete_movie movie_id db = (db, Except.error ApiError.notFound)) ∧
    (∀ m, db.movies.find? (fun m0 => m0.id == movie_id) = some m →
      delete_movie movie_id db =
        ({ db with movies := db.movies.eraseP (fun m0 => m0.id == movie_id) },
         Except.ok ()) ∧
      (delete_movie movie_id db).1.countries = db.countries ∧
      (delete_movie movie_id db).1.genres = db.genres ∧
      (delete_movie movie_id db).1.actors = db.actors ∧
      (delete_movie movie_id db).1.languages = db.languages ∧
      (db.WF →
        (get_movie movie_id (delete_movie movie_id db).1).2 =
          Except.error ApiError.notFound)) := by
  constructor
  · intro hf
    simp [delete_movie, hf]
  · intro m hf
    have hdel : delete_movie movie_id db =
        ({ db with movies := db.movies.eraseP (fun m0 => m0.id == movie_id) },
         Except.ok ()) := by
      simp [delete_movie, hf]
    refine ⟨hdel, by rw [hdel], by rw [hdel], by rw [hdel], by rw [hdel], ?_⟩
    intro hWF
    rw [hdel]
    simp [get_movie, find?_eraseP_eq_none db.movies hWF movie_id]

/-- Witness for C9 on the two-movie store: deleting the Dune movie
commits the store without its row, a get of id 1 then answers NotFound,
and the Sci-Fi genre row shared with the Tenet movie is still there. -/
theorem delete_removes_only_the_movie_witness :
    delete_movie 1 dbBoth =
      ({ dbBoth with movies := dbBoth.movies.eraseP (fun m0 => m0.id == 1) },
       Except.ok ()) ∧
    (get_movie 1 (delete_movie 1 dbBoth).1).2 = Except.error ApiError.notFound ∧
    (delete_movie 1 dbBoth).1.genres = dbBoth.genres ∧
    { id := 1, name := "Sci-Fi" } ∈ (delete_movie 1 dbBoth).1.genres := by
  have h := (delete_removes_only_the_movie dbBoth 1).2 duneMovie (by rfl)
  refine ⟨h.1, h.2.2.2.2.2 (by unfold DB.WF; decide), h.2.2.1, ?_⟩
  rw [h.2.2.1]
  decide
